import Mathlib

/-!
Verification of the Cognito user pool client resource
(`aws/resource_aws_cognito_user_pool_client.go`), a Terraform-style
declarative resource-lifecycle manager.  The Go functions are shallowly
embedded: the Terraform `ResourceData` store becomes a record whose fields
carry the zero-value semantics of `d.Get` (an unset string reads as `""`,
an unset bool as `false`, an unset set as the empty list), `d.GetOk`
becomes an explicit non-zero test, and the AWS SDK request/response
structs become records with `Option`-valued members standing for Go
pointers and nil-able slices.  Transport calls are modelled by passing
their result (a response or a coded AWS error) as an argument.
-/

namespace CognitoUserPoolClient

/-- An AWS SDK error as seen through `isAWSErr`: a machine-readable code
plus a human-readable message. -/
structure AwsError where
  code : String
  message : String
  deriving DecidableEq, Repr

/-- Whether the pattern (first argument) starts the list (second
argument), character by character. -/
def leadsList : List Char → List Char → Bool
  | [], _ => true
  | _ :: _, [] => false
  | p :: ps, c :: cs => p == c && leadsList ps cs

/-- Whether the pattern occurs contiguously anywhere in the list. -/
def hasInfixList (pat : List Char) : List Char → Bool
  | [] => pat.isEmpty
  | c :: cs => leadsList pat (c :: cs) || hasInfixList pat cs

/-- `strings.Contains` for the message test of `isAWSErr`; the empty
needle always matches. -/
def containsSubstring (s sub : String) : Bool :=
  hasInfixList sub.data s.data

/-- `strings.Split` on a single-character separator (the only shape the
source uses): cut the character list at every separator occurrence,
keeping empty segments, so the result always has one more segment than
there are separators. -/
def splitOnCharAux (sep : Char) : List Char → List Char → List (List Char)
  | [], acc => [acc.reverse]
  | c :: cs, acc =>
    if c == sep then acc.reverse :: splitOnCharAux sep cs []
    else splitOnCharAux sep cs (c :: acc)

/-- `strings.Split(s, sep)` for a one-character `sep`. -/
def stringSplitOnChar (s : String) (sep : Char) : List String :=
  (splitOnCharAux sep s.data []).map String.mk

/-- Embedding of the provider helper `isAWSErr(err, code, message)`:
the error's code equals `code` and its message contains `message`. -/
def isAWSErr (err : AwsError) (code message : String) : Bool :=
  err.code == code && containsSubstring err.message message

/-- The nested `analytics_configuration` block as stored in state: every
schema key is present in the flattened map, unset strings read as `""`
and an unset bool as `false`. -/
structure AnalyticsConfig where
  application_id : String
  application_arn : String
  external_id : String
  role_arn : String
  user_data_shared : Bool
  deriving DecidableEq, Repr

/-- The resource's state store (`*schema.ResourceData`) with `d.Get`
zero-value semantics per attribute of the schema; `id` is `d.Id()`.
`generate_secret` and `user_pool_id` are the two `ForceNew` attributes;
`client_secret` is `Computed`+`Sensitive`; `prevent_user_existence_errors`
is `Optional`+`Computed`. -/
structure ResourceData where
  id : String
  name : String
  client_secret : String
  generate_secret : Bool
  user_pool_id : String
  explicit_auth_flows : List String
  read_attributes : List String
  write_attributes : List String
  refresh_token_validity : Int
  allowed_oauth_flows : List String
  allowed_oauth_flows_user_pool_client : Bool
  allowed_oauth_scopes : List String
  callback_urls : List String
  default_redirect_uri : String
  logout_urls : List String
  prevent_user_existence_errors : String
  supported_identity_providers : List String
  analytics_configuration : Option AnalyticsConfig
  deriving DecidableEq, Repr

/-- `d.GetOk` on a string attribute: ok exactly when non-zero (`≠ ""`);
the encoder assigns the field only in that case. -/
def getOkString (s : String) : Option String :=
  if s = "" then none else some s

/-- `d.GetOk` on a set attribute followed by `expandStringSet`: ok exactly
when the set is non-empty. -/
def getOkList (l : List String) : Option (List String) :=
  if l = [] then none else some l

/-- `d.GetOk` on a bool attribute: ok exactly when the value is `true`
(the zero value `false` reports not-ok). -/
def getOkBool (b : Bool) : Option Bool :=
  if b then some true else none

/-- `d.GetOk` on an int attribute: ok exactly when non-zero. -/
def getOkInt (n : Int) : Option Int :=
  if n = 0 then none else some n

/-- The SDK's `AnalyticsConfigurationType`: each member is a Go pointer,
`none` meaning nil / field omitted from the wire request. -/
structure AnalyticsConfigurationType where
  ApplicationId : Option String
  ApplicationArn : Option String
  ExternalId : Option String
  RoleArn : Option String
  UserDataShared : Option Bool
  deriving DecidableEq, Repr

/-- `expandAwsCognitoUserPoolClientAnalyticsConfig` on a present block:
each string member is assigned only when the map value is non-empty
(`ok && v != ""`), while `UserDataShared` is always assigned. -/
def expandAnalyticsConfig (m : AnalyticsConfig) : AnalyticsConfigurationType :=
  { ApplicationId := getOkString m.application_id
    ApplicationArn := getOkString m.application_arn
    ExternalId := getOkString m.external_id
    RoleArn := getOkString m.role_arn
    UserDataShared := some m.user_data_shared }

/-- `flattenAwsCognitoUserPoolClientAnalyticsConfig` followed by
`d.Set("analytics_configuration", ...)`: a nil config flattens to the
empty list (state block absent); otherwise `user_data_shared` is set via
`aws.BoolValue` and each pointer member only when non-nil, absent map
keys reading back as zero values in state. -/
def flattenAnalyticsConfig (o : Option AnalyticsConfigurationType) :
    Option AnalyticsConfig :=
  match o with
  | none => none
  | some ac =>
    some { application_id := ac.ApplicationId.getD ""
           application_arn := ac.ApplicationArn.getD ""
           external_id := ac.ExternalId.getD ""
           role_arn := ac.RoleArn.getD ""
           user_data_shared := ac.UserDataShared.getD false }

/-- The SDK's `CreateUserPoolClientInput`.  `ClientName` and `UserPoolId`
are assigned unconditionally; every other member is guarded by `GetOk`,
`none` meaning the field is omitted from the wire request.  The struct
has no client-secret member. -/
structure CreateUserPoolClientInput where
  ClientName : String
  UserPoolId : String
  GenerateSecret : Option Bool
  ExplicitAuthFlows : Option (List String)
  ReadAttributes : Option (List String)
  WriteAttributes : Option (List String)
  RefreshTokenValidity : Option Int
  AllowedOAuthFlows : Option (List String)
  AllowedOAuthFlowsUserPoolClient : Option Bool
  AllowedOAuthScopes : Option (List String)
  CallbackURLs : Option (List String)
  DefaultRedirectURI : Option String
  LogoutURLs : Option (List String)
  SupportedIdentityProviders : Option (List String)
  AnalyticsConfiguration : Option AnalyticsConfigurationType
  PreventUserExistenceErrors : Option String
  deriving DecidableEq, Repr

/-- The SDK's `UpdateUserPoolClientInput`: `ClientId` and `UserPoolId`
assigned unconditionally, everything else guarded by `GetOk`; it has no
`GenerateSecret` and no client-secret member. -/
structure UpdateUserPoolClientInput where
  ClientId : String
  UserPoolId : String
  ClientName : Option String
  ExplicitAuthFlows : Option (List String)
  ReadAttributes : Option (List String)
  WriteAttributes : Option (List String)
  RefreshTokenValidity : Option Int
  AllowedOAuthFlows : Option (List String)
  AllowedOAuthFlowsUserPoolClient : Option Bool
  AllowedOAuthScopes : Option (List String)
  CallbackURLs : Option (List String)
  DefaultRedirectURI : Option String
  LogoutURLs : Option (List String)
  PreventUserExistenceErrors : Option String
  SupportedIdentityProviders : Option (List String)
  AnalyticsConfiguration : Option AnalyticsConfigurationType
  deriving DecidableEq, Repr

/-- The SDK's `UserPoolClientType` (wire response of Create/Describe):
every member a pointer or nil-able slice. -/
structure UserPoolClientType where
  ClientId : Option String
  UserPoolId : Option String
  ClientName : Option String
  ClientSecret : Option String
  ExplicitAuthFlows : Option (List String)
  ReadAttributes : Option (List String)
  WriteAttributes : Option (List String)
  RefreshTokenValidity : Option Int
  AllowedOAuthFlows : Option (List String)
  AllowedOAuthFlowsUserPoolClient : Option Bool
  AllowedOAuthScopes : Option (List String)
  CallbackURLs : Option (List String)
  DefaultRedirectURI : Option String
  LogoutURLs : Option (List String)
  PreventUserExistenceErrors : Option String
  SupportedIdentityProviders : Option (List String)
  AnalyticsConfiguration : Option AnalyticsConfigurationType
  deriving DecidableEq, Repr

/-- Request building of `resourceAwsCognitoUserPoolClientCreate`
(lines 193-252): name and user-pool id always, each optional attribute
only when `GetOk` reports it set. -/
def createParams (d : ResourceData) : CreateUserPoolClientInput :=
  { ClientName := d.name
    UserPoolId := d.user_pool_id
    GenerateSecret := getOkBool d.generate_secret
    ExplicitAuthFlows := getOkList d.explicit_auth_flows
    ReadAttributes := getOkList d.read_attributes
    WriteAttributes := getOkList d.write_attributes
    RefreshTokenValidity := getOkInt d.refresh_token_validity
    AllowedOAuthFlows := getOkList d.allowed_oauth_flows
    AllowedOAuthFlowsUserPoolClient := getOkBool d.allowed_oauth_flows_user_pool_client
    AllowedOAuthScopes := getOkList d.allowed_oauth_scopes
    CallbackURLs := getOkList d.callback_urls
    DefaultRedirectURI := getOkString d.default_redirect_uri
    LogoutURLs := getOkList d.logout_urls
    SupportedIdentityProviders := getOkList d.supported_identity_providers
    AnalyticsConfiguration := d.analytics_configuration.map expandAnalyticsConfig
    PreventUserExistenceErrors := getOkString d.prevent_user_existence_errors }

/-- Request building of `resourceAwsCognitoUserPoolClientUpdate`
(lines 315-374): client id and user-pool id always, each other attribute
only when `GetOk` reports its current value set — the observed state is
never consulted. -/
def updateParams (d : ResourceData) : UpdateUserPoolClientInput :=
  { ClientId := d.id
    UserPoolId := d.user_pool_id
    ClientName := getOkString d.name
    ExplicitAuthFlows := getOkList d.explicit_auth_flows
    ReadAttributes := getOkList d.read_attributes
    WriteAttributes := getOkList d.write_attributes
    RefreshTokenValidity := getOkInt d.refresh_token_validity
    AllowedOAuthFlows := getOkList d.allowed_oauth_flows
    AllowedOAuthFlowsUserPoolClient := getOkBool d.allowed_oauth_flows_user_pool_client
    AllowedOAuthScopes := getOkList d.allowed_oauth_scopes
    CallbackURLs := getOkList d.callback_urls
    DefaultRedirectURI := getOkString d.default_redirect_uri
    LogoutURLs := getOkList d.logout_urls
    PreventUserExistenceErrors := getOkString d.prevent_user_existence_errors
    SupportedIdentityProviders := getOkList d.supported_identity_providers
    AnalyticsConfiguration := d.analytics_configuration.map expandAnalyticsConfig }

/-- `aws.StringValue`: dereference a string pointer, nil reading as `""`. -/
def stringValue (o : Option String) : String := o.getD ""

/-- The `d.Set` block of `resourceAwsCognitoUserPoolClientRead`
(lines 288-307): every listed attribute is overwritten from the response
(`flattenStringSet` turning a nil slice into the empty set, a nil pointer
into the zero value); `generate_secret` is not touched by Read and keeps
its prior state value. -/
def readApply (d : ResourceData) (r : UserPoolClientType) : ResourceData :=
  { d with
    id := stringValue r.ClientId
    user_pool_id := stringValue r.UserPoolId
    name := stringValue r.ClientName
    explicit_auth_flows := r.ExplicitAuthFlows.getD []
    read_attributes := r.ReadAttributes.getD []
    write_attributes := r.WriteAttributes.getD []
    refresh_token_validity := r.RefreshTokenValidity.getD 0
    client_secret := stringValue r.ClientSecret
    allowed_oauth_flows := r.AllowedOAuthFlows.getD []
    allowed_oauth_flows_user_pool_client := r.AllowedOAuthFlowsUserPoolClient.getD false
    allowed_oauth_scopes := r.AllowedOAuthScopes.getD []
    callback_urls := r.CallbackURLs.getD []
    default_redirect_uri := stringValue r.DefaultRedirectURI
    logout_urls := r.LogoutURLs.getD []
    prevent_user_existence_errors := stringValue r.PreventUserExistenceErrors
    supported_identity_providers := r.SupportedIdentityProviders.getD []
    analytics_configuration := flattenAnalyticsConfig r.AnalyticsConfiguration }

/-- `resourceAwsCognitoUserPoolClientRead` (lines 277-309) with the
transport's `DescribeUserPoolClient` result passed in: a
`ResourceNotFoundException` clears the id and returns success, any other
error propagates, and a response is applied to state via the `d.Set`
block. -/
def resourceRead (d : ResourceData)
    (transport : Except AwsError UserPoolClientType) :
    Except AwsError ResourceData :=
  match transport with
  | Except.error e =>
    if isAWSErr e "ResourceNotFoundException" "" then
      Except.ok { d with id := "" }
    else
      Except.error e
  | Except.ok r => Except.ok (readApply d r)

/-- `resourceAwsCognitoUserPoolClientDelete` (lines 386-403) with the
transport's `DeleteUserPoolClient` result passed in: every transport
error — its code is never inspected — is wrapped and surfaced. -/
def resourceDelete (transport : Option AwsError) : Except String Unit :=
  match transport with
  | some e =>
    Except.error ("Error deleting Cognito User Pool Client: " ++ e.message)
  | none => Except.ok ()

/-- `resourceAwsCognitoUserPoolClientImport` (lines 405-416): reject when
splitting the id on `/` does not give exactly two parts or the id is
shorter than 3 characters; otherwise the first part becomes
`user_pool_id` and the second becomes the resource id. -/
def importParse (ident : String) :
    Except String (String × String) :=
  if (stringSplitOnChar ident '/').length ≠ 2 ∨ ident.length < 3 then
    Except.error ("Wrong format of resource: " ++ ident ++
      ". Please follow 'user-pool-id/client-id'")
  else
    Except.ok ((stringSplitOnChar ident '/').headD "",
      ((stringSplitOnChar ident '/').drop 1).headD "")

/-- `resourceAwsCognitoUserPoolClientUpdate` (lines 376-383) after request
building, with both transport results passed in: a failed update call is
wrapped and surfaced; a successful one always falls through to the Read
path to resync state. -/
def resourceUpdate (d : ResourceData)
    (updateTransport : Option AwsError)
    (readTransport : Except AwsError UserPoolClientType) :
    Except String ResourceData :=
  match updateTransport with
  | some e =>
    Except.error ("Error updating Cognito User Pool Client: " ++ e.message)
  | none =>
    match resourceRead d readTransport with
    | Except.error e => Except.error e.message
    | Except.ok d2 => Except.ok d2

/-- The SDK constant list `cognitoidentityprovider.ExplicitAuthFlowsType_Values()`
referenced by the `explicit_auth_flows` element validator (line 55);
mirrored from the aws-sdk-go package, which is an external collaborator. -/
def explicitAuthFlowsValues : List String :=
  ["ADMIN_NO_SRP_AUTH", "CUSTOM_AUTH_FLOW_ONLY", "USER_PASSWORD_AUTH",
   "ALLOW_ADMIN_USER_PASSWORD_AUTH", "ALLOW_CUSTOM_AUTH",
   "ALLOW_USER_PASSWORD_AUTH", "ALLOW_USER_SRP_AUTH",
   "ALLOW_REFRESH_TOKEN_AUTH"]

/-- The SDK constant list `cognitoidentityprovider.OAuthFlowType_Values()`
referenced by the `allowed_oauth_flows` element validator (line 88);
mirrored from the aws-sdk-go package. -/
def oauthFlowTypeValues : List String :=
  ["code", "implicit", "client_credentials"]

/-- The system-reserved OAuth scopes named in the schema's comment at
`allowed_oauth_scopes` (lines 103-106); the schema attaches no element
validator to that attribute. -/
def cognitoReservedScopes : List String :=
  ["phone", "email", "openid", "profile", "aws.cognito.signin.user.admin"]

/-- Modelled from the spec: `validateCognitoUserPoolClientURL` is defined
elsewhere in the provider, outside the given source; the spec only says
URL-shaped fields pass a URL-syntax check, embedded here as requiring a
single `scheme://rest` shape with both sides non-empty. -/
def validateCognitoUserPoolClientURL (s : String) : Bool :=
  !s.isEmpty && hasInfixList "://".data s.data && !leadsList "://".data s.data

/-- Modelled from the spec: `validateArn` is defined elsewhere in the
provider, outside the given source; embedded as an `arn:` leading-text
check. -/
def validateArn (s : String) : Bool :=
  leadsList "arn:".data s.data

/-- Violations of the nested block's declared constraints
(lines 154-183): `ExactlyOneOf` over `application_id`/`application_arn`,
`ConflictsWith` of `application_arn` against `external_id` and
`role_arn`, and the `validateArn` element checks. -/
def validateAnalyticsConfig (m : AnalyticsConfig) : List String :=
  (if (m.application_id != "") ^^ (m.application_arn != "") then []
   else ["analytics_configuration: exactly one of application_id, application_arn must be set"])
  ++ (if m.application_arn != "" && m.external_id != "" then
        ["analytics_configuration: application_arn conflicts with external_id"]
      else [])
  ++ (if m.application_arn != "" && m.role_arn != "" then
        ["analytics_configuration: application_arn conflicts with role_arn"]
      else [])
  ++ (if m.application_arn != "" && !(validateArn m.application_arn) then
        ["analytics_configuration.application_arn: invalid ARN"]
      else [])
  ++ (if m.role_arn != "" && !(validateArn m.role_arn) then
        ["analytics_configuration.role_arn: invalid ARN"]
      else [])

/-- The schema-declared validation of the resource (lines 26-186),
aggregated into one violation list: `MaxItems` bounds (3 for
`allowed_oauth_flows`, 50 for `allowed_oauth_scopes`, 100 for
`callback_urls` and `logout_urls`), `StringInSlice` element checks on the
two flow sets, `IntBetween(0, 3650)` on `refresh_token_validity`, the URL
element checks, and the nested block's constraints.  `allowed_oauth_scopes`
carries no element validator: its elements are never enum-checked. -/
def validate (d : ResourceData) : List String :=
  ((d.explicit_auth_flows.filter
      (fun x => decide (x ∉ explicitAuthFlowsValues))).map
    (fun x => "explicit_auth_flows: expected value to be one of the allowed auth flow types, got " ++ x))
  ++ (if 0 ≤ d.refresh_token_validity ∧ d.refresh_token_validity ≤ 3650 then []
      else ["refresh_token_validity: expected value to be in the range (0 - 3650)"])
  ++ (if d.allowed_oauth_flows.length ≤ 3 then []
      else ["allowed_oauth_flows: attribute supports 3 items maximum"])
  ++ ((d.allowed_oauth_flows.filter
        (fun x => decide (x ∉ oauthFlowTypeValues))).map
      (fun x => "allowed_oauth_flows: expected value to be one of the allowed OAuth flow types, got " ++ x))
  ++ (if d.allowed_oauth_scopes.length ≤ 50 then []
      else ["allowed_oauth_scopes: attribute supports 50 items maximum"])
  ++ (if d.callback_urls.length ≤ 100 then []
      else ["callback_urls: attribute supports 100 items maximum"])
  ++ ((d.callback_urls.filter
        (fun u => !(validateCognitoUserPoolClientURL u))).map
      (fun u => "callback_urls: invalid URL: " ++ u))
  ++ (if d.logout_urls.length ≤ 100 then []
      else ["logout_urls: attribute supports 100 items maximum"])
  ++ ((d.logout_urls.filter
        (fun u => !(validateCognitoUserPoolClientURL u))).map
      (fun u => "logout_urls: invalid URL: " ++ u))
  ++ (match d.analytics_configuration with
      | none => []
      | some m => validateAnalyticsConfig m)

/-- Per-attribute schema flags from the resource's schema declaration
(lines 26-186): only the flags the diff-classification claims consult. -/
structure AttrSchema where
  forceNew : Bool
  computed : Bool
  deriving DecidableEq, Repr

/-- The top-level attribute schema of `resourceAwsCognitoUserPoolClient`:
`generate_secret` (line 41) and `user_pool_id` (line 47) carry
`ForceNew: true`; `client_secret` and `prevent_user_existence_errors`
carry `Computed: true`. -/
def userPoolClientSchema : List (String × AttrSchema) :=
  [("name", { forceNew := false, computed := false }),
   ("client_secret", { forceNew := false, computed := true }),
   ("generate_secret", { forceNew := true, computed := false }),
   ("user_pool_id", { forceNew := true, computed := false }),
   ("explicit_auth_flows", { forceNew := false, computed := false }),
   ("read_attributes", { forceNew := false, computed := false }),
   ("write_attributes", { forceNew := false, computed := false }),
   ("refresh_token_validity", { forceNew := false, computed := false }),
   ("allowed_oauth_flows", { forceNew := false, computed := false }),
   ("allowed_oauth_flows_user_pool_client", { forceNew := false, computed := false }),
   ("allowed_oauth_scopes", { forceNew := false, computed := false }),
   ("callback_urls", { forceNew := false, computed := false }),
   ("default_redirect_uri", { forceNew := false, computed := false }),
   ("logout_urls", { forceNew := false, computed := false }),
   ("prevent_user_existence_errors", { forceNew := false, computed := true }),
   ("supported_identity_providers", { forceNew := false, computed := false }),
   ("analytics_configuration", { forceNew := false, computed := false })]

/-- `ForceNew` flag of a schema attribute. -/
def fieldForceNew (fname : String) : Bool :=
  match userPoolClientSchema.lookup fname with
  | some s => s.forceNew
  | none => false

/-- Classification of one attribute difference. -/
inductive DiffClass where
  | update
  | replace
  | ignore
  deriving DecidableEq, Repr

/-- The verb the reconciliation chooses for an entity. -/
inductive Verb where
  | update
  | replace
  | noop
  deriving DecidableEq, Repr

/-- Modelled from the spec: the Diff Engine lives in the
terraform-plugin-sdk helper/schema package, outside the given source;
only the per-attribute `ForceNew` declarations are in the source.  Per
spec section 4.3, an unchanged attribute is ignored, a changed `ForceNew`
attribute classifies as Replace, and any other changed attribute as
Update. -/
def classifyField (fname : String) (changed : Bool) : DiffClass :=
  if !changed then DiffClass.ignore
  else if fieldForceNew fname then DiffClass.replace
  else DiffClass.update

/-- Which top-level attributes differ between the last observed state and
the new desired state, attribute by attribute. -/
def changedFields (old new : ResourceData) : List (String × Bool) :=
  [("name", old.name != new.name),
   ("generate_secret", old.generate_secret != new.generate_secret),
   ("user_pool_id", old.user_pool_id != new.user_pool_id),
   ("explicit_auth_flows", old.explicit_auth_flows != new.explicit_auth_flows),
   ("read_attributes", old.read_attributes != new.read_attributes),
   ("write_attributes", old.write_attributes != new.write_attributes),
   ("refresh_token_validity", old.refresh_token_validity != new.refresh_token_validity),
   ("allowed_oauth_flows", old.allowed_oauth_flows != new.allowed_oauth_flows),
   ("allowed_oauth_flows_user_pool_client",
     old.allowed_oauth_flows_user_pool_client != new.allowed_oauth_flows_user_pool_client),
   ("allowed_oauth_scopes", old.allowed_oauth_scopes != new.allowed_oauth_scopes),
   ("callback_urls", old.callback_urls != new.callback_urls),
   ("default_redirect_uri", old.default_redirect_uri != new.default_redirect_uri),
   ("logout_urls", old.logout_urls != new.logout_urls),
   ("prevent_user_existence_errors",
     old.prevent_user_existence_errors != new.prevent_user_existence_errors),
   ("supported_identity_providers",
     old.supported_identity_providers != new.supported_identity_providers),
   ("analytics_configuration",
     old.analytics_configuration != new.analytics_configuration)]

/-- Modelled from the spec: classification of every attribute difference
between observed and desired state. -/
def classifyAll (old new : ResourceData) : List (String × DiffClass) :=
  (changedFields old new).map (fun p => (p.1, classifyField p.1 p.2))

/-- Modelled from the spec: the tie-break rule of section 4.3 — any
Replace-class difference makes the whole reconciliation a Replace; with
none, any Update-class difference makes it an Update; otherwise nothing
to do. -/
def chosenVerb (old new : ResourceData) : Verb :=
  if ((classifyAll old new).map Prod.snd).contains DiffClass.replace then
    Verb.replace
  else if ((classifyAll old new).map Prod.snd).contains DiffClass.update then
    Verb.update
  else Verb.noop

/-- The remote system assumed by the round-trip law: it persists and
echoes back verbatim every field the create request carried, assigns the
entity an id, and populates the computed fields (`ClientSecret`, a
default for `PreventUserExistenceErrors` when none was sent, and the
nested `RoleArn` when none was sent). -/
def echoResponse (p : CreateUserPoolClientInput)
    (assignedId secret pueDefault roleArnDefault : String) :
    UserPoolClientType :=
  { ClientId := some assignedId
    UserPoolId := some p.UserPoolId
    ClientName := some p.ClientName
    ClientSecret := some secret
    ExplicitAuthFlows := p.ExplicitAuthFlows
    ReadAttributes := p.ReadAttributes
    WriteAttributes := p.WriteAttributes
    RefreshTokenValidity := p.RefreshTokenValidity
    AllowedOAuthFlows := p.AllowedOAuthFlows
    AllowedOAuthFlowsUserPoolClient := p.AllowedOAuthFlowsUserPoolClient
    AllowedOAuthScopes := p.AllowedOAuthScopes
    CallbackURLs := p.CallbackURLs
    DefaultRedirectURI := p.DefaultRedirectURI
    LogoutURLs := p.LogoutURLs
    PreventUserExistenceErrors :=
      some (p.PreventUserExistenceErrors.getD pueDefault)
    SupportedIdentityProviders := p.SupportedIdentityProviders
    AnalyticsConfiguration := p.AnalyticsConfiguration.map
      (fun ac => { ac with RoleArn := some (ac.RoleArn.getD roleArnDefault) }) }

/-- A desired state presenting a set-valued attribute at the
configuration level: `none` for an attribute absent from the
configuration, `some l` for one present with elements `l`.  Terraform's
state store holds the type's zero value for an absent attribute, so both
collapse through `Option.getD []` before the resource code ever sees
them. -/
def withCallbackUrls (d : ResourceData) (v : Option (List String)) :
    ResourceData :=
  { d with callback_urls := v.getD [] }

/-- A desired state presenting `generate_secret` at the configuration
level: `none` for absent, `some b` for explicitly set to `b`; the state
store holds `false` for an absent bool attribute. -/
def withGenerateSecret (d : ResourceData) (v : Option Bool) :
    ResourceData :=
  { d with generate_secret := v.getD false }

/-- A desired state presenting `allowed_oauth_flows_user_pool_client` at
the configuration level. -/
def withAllowedOAuthFlowsUserPoolClient (d : ResourceData)
    (v : Option Bool) : ResourceData :=
  { d with allowed_oauth_flows_user_pool_client := v.getD false }

/-- The Create flow of the lifecycle controller against the round-trip
remote: build the create request (lines 193-252), let the remote echo it
back with computed fields assigned, then fall through to Read
(lines 262-264) to apply the response to state. -/
def createRoundTrip (d : ResourceData)
    (assignedId secret pueDefault roleArnDefault : String) : ResourceData :=
  readApply d
    (echoResponse (createParams d) assignedId secret pueDefault roleArnDefault)

/-- A concrete well-formed desired state (the scenario of spec section 8)
used to instantiate the universally quantified theorems. -/
def exampleState : ResourceData :=
  { id := ""
    name := "app1"
    client_secret := ""
    generate_secret := true
    user_pool_id := "pool1"
    explicit_auth_flows := []
    read_attributes := []
    write_attributes := []
    refresh_token_validity := 30
    allowed_oauth_flows := []
    allowed_oauth_flows_user_pool_client := false
    allowed_oauth_scopes := []
    callback_urls := []
    default_redirect_uri := ""
    logout_urls := []
    prevent_user_existence_errors := ""
    supported_identity_providers := []
    analytics_configuration := none }

/-- The example state with a populated callback-URL set. -/
def exampleStateWithUrls : ResourceData :=
  { exampleState with callback_urls := ["https://example.com/callback"] }

/-- The example state with an OAuth scope element that is not one of the
system-reserved scopes. -/
def scopeState : ResourceData :=
  { exampleState with allowed_oauth_scopes := ["not-a-real-scope"] }

/-- The example state with an element outside the fixed auth-flow enum. -/
def badFlowState : ResourceData :=
  { exampleState with explicit_auth_flows := ["NOT_A_FLOW"] }

/-- The example state with an element outside the fixed OAuth-flow enum. -/
def badOAuthFlowState : ResourceData :=
  { exampleState with allowed_oauth_flows := ["password"] }

/-- A transport error carrying the not-found code that `isAWSErr`
recognises in the Read path. -/
def notFoundErr : AwsError :=
  { code := "ResourceNotFoundException", message := "No client exists" }

/-- A transport error with a non-not-found code. -/
def accessErr : AwsError :=
  { code := "AccessDeniedException", message := "forbidden" }

/- Helper lemmas: each `GetOk`-guarded encoder field decodes back to the
state value it came from, because the zero value is exactly what a nil
wire field reads back as. -/

lemma getOkList_getD (l : List String) : (getOkList l).getD [] = l := by
  unfold getOkList; split <;> simp_all

lemma getOkString_getD (s : String) : (getOkString s).getD "" = s := by
  unfold getOkString; split <;> simp_all

lemma getOkBool_getD (b : Bool) : (getOkBool b).getD false = b := by
  cases b <;> rfl

lemma getOkInt_getD (n : Int) : (getOkInt n).getD 0 = n := by
  unfold getOkInt; split <;> simp_all

lemma getOkString_getD_ne (s fallback : String) (h : fallback ≠ "") :
    (getOkString s).getD fallback ≠ "" := by
  unfold getOkString; split <;> simp_all

lemma getOkString_getD_of_ne (s fallback : String) (h : s ≠ "") :
    (getOkString s).getD fallback = s := by
  unfold getOkString; simp [h]

/-- C2 counterexample: when the transport Delete call reports the
resource is already not found, the Delete operation still returns an
error — the error's code is never inspected — so a second Delete on an
already-deleted identity surfaces an error instead of succeeding. -/
theorem deleteNotFoundStillErrors :
    resourceDelete (some notFoundErr) =
      Except.error "Error deleting Cognito User Pool Client: No client exists" :=
  rfl

/-- C2 amended: Delete surfaces every transport error, including one
whose code is `ResourceNotFoundException`; it succeeds exactly when the
transport reports no error, so deleting twice errors on the second call. -/
theorem deleteSurfacesNotFound :
    (∀ e : AwsError, isAWSErr e "ResourceNotFoundException" "" = true →
      resourceDelete (some e) =
        Except.error ("Error deleting Cognito User Pool Client: " ++ e.message)) ∧
    resourceDelete none = Except.ok () :=
  ⟨fun _ _ => rfl, rfl⟩

/-- C2 witness: the amended Delete behaviour at a concrete not-found
transport error. -/
theorem deleteSurfacesNotFound_witness :
    resourceDelete (some notFoundErr) =
      Except.error ("Error deleting Cognito User Pool Client: " ++
        notFoundErr.message) :=
  deleteSurfacesNotFound.1 notFoundErr (by decide)

/-- C3: a Read whose transport call fails with the not-found code clears
the stored id (marking the entity Absent) and returns success; a Read
failing with any other error propagates that error. -/
theorem readNotFoundIsAbsent :
    (∀ (d : ResourceData) (e : AwsError),
      isAWSErr e "ResourceNotFoundException" "" = true →
      resourceRead d (Except.error e) = Except.ok { d with id := "" }) ∧
    (∀ (d : ResourceData) (e : AwsError),
      isAWSErr e "ResourceNotFoundException" "" = false →
      resourceRead d (Except.error e) = Except.error e) := by
  constructor <;> intro d e h <;> simp [resourceRead, h]

/-- C3 witness: the Read behaviour at a concrete not-found error and at a
concrete access-denied error. -/
theorem readNotFoundIsAbsent_witness :
    resourceRead exampleState (Except.error notFoundErr) =
      Except.ok { exampleState with id := "" } ∧
    resourceRead exampleState (Except.error accessErr) =
      Except.error accessErr :=
  ⟨readNotFoundIsAbsent.1 exampleState notFoundErr (by decide),
   readNotFoundIsAbsent.2 exampleState accessErr (by decide)⟩

/-- C8 counterexample: a desired state whose callback-URL set is present
with zero elements and one where the attribute is absent produce the
same wire request — `GetOk` reports not-ok for both, so the three-way
distinction collapses at the encoder. -/
theorem emptyAndAbsentSetCollapse :
    createParams (withCallbackUrls exampleState (some [])) =
      createParams (withCallbackUrls exampleState none) :=
  rfl

/-- C8 amended: the encoder collapses the empty and absent states of a
set-valued attribute — both omit the field from the wire request — and
only a populated set is sent, verbatim. -/
theorem setEncodeCollapsesEmpty :
    (∀ d : ResourceData,
      createParams (withCallbackUrls d (some [])) =
        createParams (withCallbackUrls d none)) ∧
    (∀ (d : ResourceData) (l : List String), l ≠ [] →
      (createParams (withCallbackUrls d (some l))).CallbackURLs = some l) ∧
    (∀ d : ResourceData,
      (createParams (withCallbackUrls d none)).CallbackURLs = none) := by
  refine ⟨fun d => rfl, ?_, fun d => rfl⟩
  intro d l h
  simp [createParams, withCallbackUrls, getOkList, h]

/-- C8 witness: a populated callback-URL set is carried verbatim in the
create request. -/
theorem setEncodeCollapsesEmpty_witness :
    (createParams (withCallbackUrls exampleState
      (some ["https://example.com/callback"]))).CallbackURLs =
      some ["https://example.com/callback"] :=
  setEncodeCollapsesEmpty.2.1 exampleState ["https://example.com/callback"]
    (by decide)

/-- C9: the wire requests built by the Create and Update paths are
invariant under the stored `client_secret` — the request structs carry no
secret member and the encoders never read it — while the Read path is
what populates the secret, from the wire response. -/
theorem secretNeverEncoded :
    ∀ (d : ResourceData) (x : String) (r : UserPoolClientType),
      createParams { d with client_secret := x } = createParams d ∧
      updateParams { d with client_secret := x } = updateParams d ∧
      (readApply d r).client_secret = stringValue r.ClientSecret :=
  fun _ _ _ => ⟨rfl, rfl, rfl⟩

/-- C10: an optional bool attribute explicitly set to `false` and one
absent from the configuration produce identical Create and Update wire
requests, because `GetOk` reports not-ok on the zero value `false`; in
particular the field is omitted (`none`) in both cases. -/
theorem falseBoolOmitted :
    ∀ d : ResourceData,
      createParams (withGenerateSecret d (some false)) =
        createParams (withGenerateSecret d none) ∧
      createParams (withAllowedOAuthFlowsUserPoolClient d (some false)) =
        createParams (withAllowedOAuthFlowsUserPoolClient d none) ∧
      updateParams (withAllowedOAuthFlowsUserPoolClient d (some false)) =
        updateParams (withAllowedOAuthFlowsUserPoolClient d none) ∧
      (createParams (withGenerateSecret d (some false))).GenerateSecret =
        none ∧
      (updateParams (withAllowedOAuthFlowsUserPoolClient d
        (some false))).AllowedOAuthFlowsUserPoolClient = none :=
  fun _ => ⟨rfl, rfl, rfl, rfl, rfl⟩

lemma chosenVerb_eq_replace_of_mem (old new : ResourceData)
    (h : DiffClass.replace ∈ (classifyAll old new).map Prod.snd) :
    chosenVerb old new = Verb.replace := by
  have hc : ((classifyAll old new).map Prod.snd).contains DiffClass.replace
      = true := by
    simpa [List.elem_iff] using h
  unfold chosenVerb
  rw [if_pos hc]

/-- C4: any change to `user_pool_id` or to `generate_secret` — the two
attributes the schema declares `ForceNew` — classifies as Replace and
makes the chosen reconciliation verb Replace; and whenever any attribute
classifies as Replace, the chosen verb is never an in-place Update,
however the other attributes classify. -/
theorem forceNewImpliesReplace :
    (∀ old new : ResourceData,
      old.user_pool_id ≠ new.user_pool_id ∨
        old.generate_secret ≠ new.generate_secret →
      chosenVerb old new = Verb.replace) ∧
    (∀ old new : ResourceData,
      DiffClass.replace ∈ (classifyAll old new).map Prod.snd →
      chosenVerb old new ≠ Verb.update) := by
  constructor
  · intro old new h
    apply chosenVerb_eq_replace_of_mem
    rcases h with h | h
    · have hb : (old.user_pool_id != new.user_pool_id) = true := by
        simpa [bne_iff_ne] using h
      have hcl : classifyField "user_pool_id"
          (old.user_pool_id != new.user_pool_id) = DiffClass.replace := by
        rw [hb]; rfl
      simp [classifyAll, changedFields, hcl]
    · have hb : (old.generate_secret != new.generate_secret) = true := by
        simpa [bne_iff_ne] using h
      have hcl : classifyField "generate_secret"
          (old.generate_secret != new.generate_secret) = DiffClass.replace := by
        rw [hb]; rfl
      simp [classifyAll, changedFields, hcl]
  · intro old new h
    rw [chosenVerb_eq_replace_of_mem old new h]
    intro hcontra
    exact Verb.noConfusion hcontra

/-- C4 witness: changing only `user_pool_id` on the example state makes
the chosen verb Replace, never Update. -/
theorem forceNewImpliesReplace_witness :
    chosenVerb exampleState { exampleState with user_pool_id := "pool2" } =
      Verb.replace ∧
    chosenVerb exampleState { exampleState with user_pool_id := "pool2" } ≠
      Verb.update :=
  ⟨forceNewImpliesReplace.1 exampleState
      { exampleState with user_pool_id := "pool2" } (Or.inl (by decide)),
   forceNewImpliesReplace.2 exampleState
      { exampleState with user_pool_id := "pool2" } (by decide)⟩

/-- C5 counterexample: `"ab/"` splits into exactly two parts of which the
second is empty, yet the import parser accepts it — the code checks only
the part count and the overall length, never that the parts are
non-empty — refuting the claimed equivalence. -/
theorem importAcceptsEmptyPart :
    importParse "ab/" = Except.ok ("ab", "") :=
  rfl

/-- C5 amended: import parsing succeeds exactly when the identifier
splits on `/` into exactly two parts — possibly empty ones — and the
identifier is at least 3 characters long; on success the first part is
the user-pool id and the second the client id, and on failure the error
names the expected `user-pool-id/client-id` shape. -/
theorem importParseSpec :
    (∀ (s a b : String),
      stringSplitOnChar s '/' = [a, b] → 3 ≤ s.length →
      importParse s = Except.ok (a, b)) ∧
    (∀ s : String,
      (stringSplitOnChar s '/').length ≠ 2 ∨ s.length < 3 →
      importParse s = Except.error ("Wrong format of resource: " ++ s ++
        ". Please follow 'user-pool-id/client-id'")) := by
  constructor
  · intro s a b hsplit hlen
    unfold importParse
    rw [if_neg]
    · rw [hsplit]; rfl
    · simp [hsplit]
      omega
  · intro s h
    unfold importParse
    rw [if_pos h]

/-- C5 witness: the spec's four examples — `"pool123/clientABC"` and
`"a/b"` parse, `"pool123"` and `"a/b/c"` fail with the format error. -/
theorem importParseSpec_witness :
    importParse "pool123/clientABC" = Except.ok ("pool123", "clientABC") ∧
    importParse "a/b" = Except.ok ("a", "b") ∧
    importParse "pool123" = Except.error ("Wrong format of resource: " ++
      "pool123" ++ ". Please follow 'user-pool-id/client-id'") ∧
    importParse "a/b/c" = Except.error ("Wrong format of resource: " ++
      "a/b/c" ++ ". Please follow 'user-pool-id/client-id'") :=
  ⟨importParseSpec.1 "pool123/clientABC" "pool123" "clientABC"
      (by decide) (by decide),
   importParseSpec.1 "a/b" "a" "b" (by decide) (by decide),
   importParseSpec.2 "pool123" (Or.inl (by decide)),
   importParseSpec.2 "a/b/c" (Or.inl (by decide))⟩

/-- C6 counterexample: take the last observed state equal to the desired
state (`exampleState` for both), so no attribute changed; the update
request nevertheless carries the client name — the encoder consults only
the current value, never the observed one, so unchanged settable fields
are not omitted. -/
theorem updateSendsUnchangedField :
    (updateParams exampleState).ClientName = some "app1" := by
  decide

/-- C6 amended: the Update encoder includes every settable attribute
whose current value is non-zero, whether or not it differs from the last
observed value, and omits only zero-valued attributes; after a successful
update call the Read-back always runs, and a failed update call surfaces
the wrapped error without reading back. -/
theorem updateIgnoresObservedAndRereads :
    (∀ old d : ResourceData, d.name = old.name → d.name ≠ "" →
      (updateParams d).ClientName = some d.name) ∧
    (∀ old d : ResourceData, d.callback_urls = old.callback_urls →
      d.callback_urls ≠ [] →
      (updateParams d).CallbackURLs = some d.callback_urls) ∧
    (∀ (d : ResourceData) (r : UserPoolClientType),
      resourceUpdate d none (Except.ok r) = Except.ok (readApply d r)) ∧
    (∀ (d : ResourceData) (e : AwsError)
        (rt : Except AwsError UserPoolClientType),
      resourceUpdate d (some e) rt =
        Except.error ("Error updating Cognito User Pool Client: " ++
          e.message)) := by
  refine ⟨?_, ?_, fun d r => rfl, fun d e rt => rfl⟩
  · intro old d _ h
    simp [updateParams, getOkString, h]
  · intro old d _ h
    simp [updateParams, getOkList, h]

/-- C6 witness: the amended behaviour at concrete states whose name and
callback URLs equal the observed values. -/
theorem updateIgnoresObservedAndRereads_witness :
    (updateParams exampleStateWithUrls).ClientName =
      some exampleStateWithUrls.name ∧
    (updateParams exampleStateWithUrls).CallbackURLs =
      some exampleStateWithUrls.callback_urls :=
  ⟨updateIgnoresObservedAndRereads.1 exampleStateWithUrls
      exampleStateWithUrls rfl (by decide),
   updateIgnoresObservedAndRereads.2.1 exampleStateWithUrls
      exampleStateWithUrls rfl (by decide)⟩

/-- C7 counterexample: an `allowed_oauth_scopes` element that is none of
the system-reserved scopes passes validation without any violation — the
schema attaches no enum check to that attribute — refuting the claim for
the scope-type set. -/
theorem scopesNotEnumChecked :
    "not-a-real-scope" ∈ scopeState.allowed_oauth_scopes ∧
    "not-a-real-scope" ∉ cognitoReservedScopes ∧
    validate scopeState = [] := by
  refine ⟨by decide, by decide, by decide⟩

/-- C7 amended: enum membership is enforced for the two flow-type sets —
any element of `explicit_auth_flows` outside the fixed auth-flow values,
or of `allowed_oauth_flows` outside the fixed OAuth-flow values, yields a
validation violation — but `allowed_oauth_scopes` elements are not
enum-checked. -/
theorem enumCheckedFlows :
    (∀ (d : ResourceData) (x : String), x ∈ d.explicit_auth_flows →
      x ∉ explicitAuthFlowsValues → validate d ≠ []) ∧
    (∀ (d : ResourceData) (x : String), x ∈ d.allowed_oauth_flows →
      x ∉ oauthFlowTypeValues → validate d ≠ []) := by
  constructor
  · intro d x hx hnx hval
    unfold validate at hval
    simp only [List.append_eq_nil, List.map_eq_nil_iff, List.filter_eq_nil_iff,
      decide_eq_true_eq, not_not] at hval
    obtain ⟨⟨⟨⟨⟨⟨⟨⟨⟨h1, h2⟩, h3⟩, h4⟩, h5⟩, h6⟩, h7⟩, h8⟩, h9⟩, h10⟩ := hval
    exact hnx (h1 x hx)
  · intro d x hx hnx hval
    unfold validate at hval
    simp only [List.append_eq_nil, List.map_eq_nil_iff, List.filter_eq_nil_iff,
      decide_eq_true_eq, not_not] at hval
    obtain ⟨⟨⟨⟨⟨⟨⟨⟨⟨h1, h2⟩, h3⟩, h4⟩, h5⟩, h6⟩, h7⟩, h8⟩, h9⟩, h10⟩ := hval
    exact hnx (h4 x hx)

/-- C7 witness: the amended enum checks at concrete states carrying one
out-of-enum element each. -/
theorem enumCheckedFlows_witness :
    validate badFlowState ≠ [] ∧ validate badOAuthFlowState ≠ [] :=
  ⟨enumCheckedFlows.1 badFlowState "NOT_A_FLOW" (by decide) (by decide),
   enumCheckedFlows.2 badOAuthFlowState "password" (by decide) (by decide)⟩

/-- C1: for every desired state accepted by the validator, running the
Create flow against a remote that echoes back exactly what the create
request carried (and assigns the computed fields non-empty values) reads
back a state equal to the desired one on every non-Computed attribute,
while the Computed attributes — `client_secret`,
`prevent_user_existence_errors` and the nested `role_arn` — come back
populated, and echoed verbatim where the desired state supplied them. -/
theorem createReadRoundTrip (d : ResourceData)
    (assignedId secret pueDefault roleArnDefault : String)
    (_hval : validate d = []) (hsec : secret ≠ "")
    (hpue : pueDefault ≠ "") (hrole : roleArnDefault ≠ "") :
    (createRoundTrip d assignedId secret pueDefault roleArnDefault).name
        = d.name ∧
    (createRoundTrip d assignedId secret pueDefault roleArnDefault).user_pool_id
        = d.user_pool_id ∧
    (createRoundTrip d assignedId secret pueDefault roleArnDefault).generate_secret
        = d.generate_secret ∧
    (createRoundTrip d assignedId secret pueDefault roleArnDefault).explicit_auth_flows
        = d.explicit_auth_flows ∧
    (createRoundTrip d assignedId secret pueDefault roleArnDefault).read_attributes
        = d.read_attributes ∧
    (createRoundTrip d assignedId secret pueDefault roleArnDefault).write_attributes
        = d.write_attributes ∧
    (createRoundTrip d assignedId secret pueDefault roleArnDefault).refresh_token_validity
        = d.refresh_token_validity ∧
    (createRoundTrip d assignedId secret pueDefault roleArnDefault).allowed_oauth_flows
        = d.allowed_oauth_flows ∧
    (createRoundTrip d assignedId secret pueDefault roleArnDefault).allowed_oauth_flows_user_pool_client
        = d.allowed_oauth_flows_user_pool_client ∧
    (createRoundTrip d assignedId secret pueDefault roleArnDefault).allowed_oauth_scopes
        = d.allowed_oauth_scopes ∧
    (createRoundTrip d assignedId secret pueDefault roleArnDefault).callback_urls
        = d.callback_urls ∧
    (createRoundTrip d assignedId secret pueDefault roleArnDefault).default_redirect_uri
        = d.default_redirect_uri ∧
    (createRoundTrip d assignedId secret pueDefault roleArnDefault).logout_urls
        = d.logout_urls ∧
    (createRoundTrip d assignedId secret pueDefault roleArnDefault).supported_identity_providers
        = d.supported_identity_providers ∧
    (createRoundTrip d assignedId secret pueDefault roleArnDefault).client_secret
        = secret ∧
    (createRoundTrip d assignedId secret pueDefault roleArnDefault).client_secret
        ≠ "" ∧
    (createRoundTrip d assignedId secret pueDefault roleArnDefault).prevent_user_existence_errors
        ≠ "" ∧
    (d.prevent_user_existence_errors ≠ "" →
      (createRoundTrip d assignedId secret pueDefault roleArnDefault).prevent_user_existence_errors
        = d.prevent_user_existence_errors) ∧
    (d.analytics_configuration = none →
      (createRoundTrip d assignedId secret pueDefault roleArnDefault).analytics_configuration
        = none) ∧
    (∀ m : AnalyticsConfig, d.analytics_configuration = some m →
      ∃ m2 : AnalyticsConfig,
        (createRoundTrip d assignedId secret pueDefault roleArnDefault).analytics_configuration
          = some m2 ∧
        m2.application_id = m.application_id ∧
        m2.application_arn = m.application_arn ∧
        m2.external_id = m.external_id ∧
        m2.user_data_shared = m.user_data_shared ∧
        m2.role_arn ≠ "" ∧
        (m.role_arn ≠ "" → m2.role_arn = m.role_arn)) := by
  refine ⟨rfl, rfl, rfl,
    getOkList_getD _, getOkList_getD _, getOkList_getD _,
    getOkInt_getD _, getOkList_getD _, getOkBool_getD _,
    getOkList_getD _, getOkList_getD _, getOkString_getD _,
    getOkList_getD _, getOkList_getD _,
    rfl, hsec, getOkString_getD_ne _ _ hpue,
    fun h => getOkString_getD_of_ne _ _ h, ?_, ?_⟩
  · intro h
    simp [createRoundTrip, readApply, echoResponse, createParams, h,
      flattenAnalyticsConfig]
  · intro m hm
    simp only [createRoundTrip, readApply, echoResponse, createParams, hm,
      Option.map_some', flattenAnalyticsConfig, expandAnalyticsConfig,
      Option.getD_some]
    exact ⟨_, rfl, getOkString_getD _, getOkString_getD _,
      getOkString_getD _, rfl, getOkString_getD_ne _ _ hrole,
      fun h => getOkString_getD_of_ne _ _ h⟩

/-- C1 witness: the round-trip at the concrete scenario state of spec
section 8, with the remote assigning id `c-1` and secret `sek-1`. -/
theorem createReadRoundTrip_witness :
    validate exampleState = [] ∧
    (createRoundTrip exampleState "c-1" "sek-1" "ENABLED"
      "arn:aws:iam::123456789012:role/pinpoint").name = exampleState.name ∧
    (createRoundTrip exampleState "c-1" "sek-1" "ENABLED"
      "arn:aws:iam::123456789012:role/pinpoint").client_secret = "sek-1" :=
  ⟨by decide,
   (createReadRoundTrip exampleState "c-1" "sek-1" "ENABLED"
      "arn:aws:iam::123456789012:role/pinpoint"
      (by decide) (by decide) (by decide) (by decide)).1,
   (createReadRoundTrip exampleState "c-1" "sek-1" "ENABLED"
      "arn:aws:iam::123456789012:role/pinpoint"
      (by decide) (by decide) (by decide) (by decide)).2.2.2.2.2.2.2.2.2.2.2.2.2.2.1⟩

end CognitoUserPoolClient
